import Mathlib

/-!
Shallow embedding of the Slurm connection-manager sources (con.c and
signal.c) together with theorems checking the natural-language
specification against the code.

Machine integers that can go negative (file descriptors, return codes,
errno values) are modelled as Int; no arithmetic here can overflow the C
ranges involved.  External side effects (poll controller linking, the
actual write/connect/socket syscalls) are modelled by explicit oracle
parameters giving the result the kernel would have returned, so the
embedded functions stay pure while following the C control flow exactly.
-/

namespace Slurm

/-! ## Error and return codes (values as on Linux / slurm_errno.h) -/

def SLURM_SUCCESS : Int := 0
def SLURM_ERROR : Int := -1
def EPERM : Int := 1
def EINTR : Int := 4
def EBADF : Int := 9
def EAGAIN : Int := 11
def EWOULDBLOCK : Int := 11
def EINVAL : Int := 22
def EPIPE : Int := 32
def EAFNOSUPPORT : Int := 97
def EINPROGRESS : Int := 115

/-- Taxonomized slurm error for operations that need a socket in a valid
state; the exact numeral is not load-bearing, only that it is nonzero and
distinct from the other codes used here. -/
def SLURM_COMMUNICATIONS_MISSING_SOCKET_ERROR : Int := 1011

/-! ## Data model -/

/-- conmgr_con_type_t (CON_TYPE_RAW / CON_TYPE_RPC). -/
inductive ConType where
  | RAW
  | RPC
deriving DecidableEq, Repr

/-- pollctl_fd_type_t: the per-fd polling interest kinds.  The C enum's
INVALID / INVALID_MAX sentinels are unrepresentable here; xassert-based
validation is a no-op in production builds. -/
inductive PctlType where
  | NONE
  | CONNECTED
  | READ_ONLY
  | READ_WRITE
  | WRITE_ONLY
  | LISTEN
  | UNSUPPORTED
deriving DecidableEq, Repr

/-- The fields of conmgr_fd_t that the verified operations read or
write.  Buffers are reduced to the offset that close_con resets and a
flag for whether the in-buffer exists (con->in). -/
structure ConmgrFd where
  input_fd : Int
  output_fd : Int
  is_socket : Bool
  is_listen : Bool
  read_eof : Bool
  can_read : Bool
  work_active : Bool
  type : ConType
  polling_input_fd : PctlType
  polling_output_fd : PctlType
  has_in_buf : Bool
  in_offset : Nat
  unix_socket : Option String
deriving DecidableEq, Repr

/-! ## fd_change_mode (con.c) -/

/-- fd_change_mode: if the type is unchanged it only logs and returns
SLURM_SUCCESS; otherwise it logs and stores the new type, returning
SLURM_SUCCESS.  Returns (rc, updated connection). -/
def fd_change_mode (con : ConmgrFd) (type : ConType) : Int × ConmgrFd :=
  if con.type = type then
    (SLURM_SUCCESS, con)
  else
    (SLURM_SUCCESS, { con with type := type })

/-! ## _set_fd_polling and con_set_polling (con.c) -/

/-- _set_fd_polling: computes the new polling kind stored for one fd.
`linkRc` is the oracle for the pollctl_link_fd result when a fresh link
is needed.  The fatal() path (link error that is neither success nor
EPERM) is modelled as `none`: the process aborts and no kind is stored. -/
def set_fd_polling (linkRc : Int) (old new : PctlType) : Option PctlType :=
  if old = PctlType.UNSUPPORTED then
    some PctlType.UNSUPPORTED
  else if old = new then
    some new
  else if new = PctlType.NONE then
    some PctlType.NONE
  else if old ≠ PctlType.NONE then
    some new
  else if linkRc = 0 then
    some new
  else if linkRc = EPERM then
    some PctlType.UNSUPPORTED
  else
    none

/-- The switch statement of con_set_polling: maps a desired kind to the
(in_type, out_type) pair, both initialized to PCTL_TYPE_NONE.  The
UNSUPPORTED / INVALID cases fatal_abort in C and are handled by the
caller here. -/
def con_polling_map (type : PctlType) (is_same : Bool) : PctlType × PctlType :=
  match type with
  | PctlType.NONE => (PctlType.NONE, PctlType.NONE)
  | PctlType.CONNECTED =>
    if is_same then (PctlType.CONNECTED, PctlType.NONE)
    else (PctlType.CONNECTED, PctlType.CONNECTED)
  | PctlType.READ_ONLY => (PctlType.READ_ONLY, PctlType.NONE)
  | PctlType.READ_WRITE =>
    if is_same then (PctlType.READ_WRITE, PctlType.NONE)
    else (PctlType.READ_ONLY, PctlType.WRITE_ONLY)
  | PctlType.WRITE_ONLY =>
    if is_same then (PctlType.WRITE_ONLY, PctlType.NONE)
    else (PctlType.NONE, PctlType.WRITE_ONLY)
  | PctlType.LISTEN => (PctlType.LISTEN, PctlType.NONE)
  | PctlType.UNSUPPORTED => (PctlType.NONE, PctlType.NONE)

/-- con_set_polling: maps the desired kind to per-fd interest and stores
the result of _set_fd_polling on each present side.  `linkIn` / `linkOut`
are the pollctl_link_fd result oracles for the input and output side.
`none` models the fatal_abort paths (type UNSUPPORTED, or a fatal link
error inside _set_fd_polling). -/
def con_set_polling (con : ConmgrFd) (type : PctlType)
    (linkIn linkOut : Int) : Option ConmgrFd :=
  if type = PctlType.UNSUPPORTED then
    none
  else
    let mapped := con_polling_map type (decide (con.input_fd = con.output_fd))
    let out_type :=
      if con.polling_output_fd = PctlType.UNSUPPORTED then
        PctlType.UNSUPPORTED
      else mapped.2
    let in_type :=
      if con.polling_input_fd = PctlType.UNSUPPORTED then
        PctlType.UNSUPPORTED
      else mapped.1
    if con.input_fd = con.output_fd then
      (set_fd_polling linkIn con.polling_input_fd in_type).map
        (fun p => { con with polling_input_fd := p })
    else
      (if 0 ≤ con.input_fd then
         set_fd_polling linkIn con.polling_input_fd in_type
       else some con.polling_input_fd).bind
        (fun pin =>
          (if 0 ≤ con.output_fd then
             set_fd_polling linkOut con.polling_output_fd out_type
           else some con.polling_output_fd).map
            (fun pout =>
              { con with polling_input_fd := pin,
                         polling_output_fd := pout }))

/-! ## close_con (con.c) -/

/-- close_con, restricted to its effect on the connection state.  If the
input fd is already closed it only logs and leaves the connection
untouched.  Otherwise it sets polling to NONE (which never needs a fresh
pollctl link, so the oracle values are irrelevant and 0 is passed),
marks EOF, resets the in-buffer offset, and forgets the input fd.  The
close/shutdown/unlink syscalls affect no connection field. -/
def close_con (con : ConmgrFd) : ConmgrFd :=
  if con.input_fd < 0 then
    con
  else
    let con1 := (con_set_polling con PctlType.NONE 0 0).getD con
    { con1 with read_eof := true,
                can_read := false,
                in_offset := if con1.has_in_buf then 0 else con1.in_offset,
                input_fd := -1 }

/-! ## conmgr_queue_close_fd and _deferred_close_fd (con.c) -/

/-- What a call dispatches to: queue the _deferred_close_fd work item,
or call close_con right away. -/
inductive CloseDispatch where
  | deferWork
  | closeNow
deriving DecidableEq, Repr

/-- conmgr_queue_close_fd: the branch taken under mgr.mutex.  As written
in the source, the work_active test is negated: when work_active is
false the close is deferred via add_work_con_fifo(_deferred_close_fd),
and when work_active is true close_con runs immediately. -/
def conmgr_queue_close_fd (con : ConmgrFd) : CloseDispatch :=
  if !con.work_active then
    CloseDispatch.deferWork
  else
    CloseDispatch.closeNow

/-- What the deferred close work item does when it runs. -/
inductive DeferredCloseStep where
  | requeue
  | closeNow
deriving DecidableEq, Repr

/-- _deferred_close_fd: if the connection is (again) actively doing work
it re-queues itself through conmgr_queue_close_fd, otherwise it calls
close_con. -/
def deferred_close_fd (con : ConmgrFd) : DeferredCloseStep :=
  if con.work_active then
    DeferredCloseStep.requeue
  else
    DeferredCloseStep.closeNow

/-! ## conmgr_queue_send_fd / conmgr_queue_receive_fd (con.c) -/

/-- conmgr_queue_send_fd: returns (rc, whether a _send_fd work item was
queued).  The source checks, in order: the fd being sent is valid, the
connection is a socket, and the output fd is open.  It does not examine
read_eof. -/
def conmgr_queue_send_fd (con : ConmgrFd) (fd : Int) : Int × Bool :=
  if fd < 0 then
    (EINVAL, false)
  else if !con.is_socket then
    (EAFNOSUPPORT, false)
  else if con.output_fd < 0 then
    (SLURM_COMMUNICATIONS_MISSING_SOCKET_ERROR, false)
  else
    (SLURM_SUCCESS, true)

/-- conmgr_queue_receive_fd: returns (rc, whether a _receive_fd work
item was queued).  The source checks, in order: the source is a socket,
it has not reached EOF, and its input fd is open. -/
def conmgr_queue_receive_fd (src : ConmgrFd) : Int × Bool :=
  if !src.is_socket then
    (EAFNOSUPPORT, false)
  else if src.read_eof then
    (SLURM_COMMUNICATIONS_MISSING_SOCKET_ERROR, false)
  else if src.input_fd < 0 then
    (SLURM_COMMUNICATIONS_MISSING_SOCKET_ERROR, false)
  else
    (SLURM_SUCCESS, true)

/-! ## _send_fd work item (con.c) -/

/-- conmgr_work_status_t as seen by a work callback. -/
inductive WorkStatus where
  | RUN
  | CANCELLED
deriving DecidableEq, Repr

/-- Result of one execution of the _send_fd work item: the connection
state it leaves behind, whether the local copy of the fd was closed
(fd_close), and whether send_fd_over_socket was invoked. -/
structure SendFdOutcome where
  con : ConmgrFd
  local_fd_closed : Bool
  sent : Bool
deriving DecidableEq, Repr

/-- _send_fd: on CANCELLED it only logs; on RUN with an invalid
output_fd it only logs; otherwise it writes the fd as ancillary data
over output_fd (send_fd_over_socket, which does not touch the
connection).  On every path it then closes the local copy of the fd.
No branch writes to the connection. -/
def send_fd_work (status : WorkStatus) (con : ConmgrFd) (_fd : Int) :
    SendFdOutcome :=
  match status with
  | WorkStatus.CANCELLED =>
    { con := con, local_fd_closed := true, sent := false }
  | WorkStatus.RUN =>
    if con.output_fd < 0 then
      { con := con, local_fd_closed := true, sent := false }
    else
      { con := con, local_fd_closed := true, sent := true }

/-! ## _match_socket_address, _is_listening and the listen loop (con.c) -/

/-- slurm_addr_t restricted to the sockaddr fields the duplicate check
reads: family tag, then per family the compared components.  IPv4 and
IPv6 addresses are the raw address bytes as a Nat. -/
inductive SlurmAddr where
  | v4 (port : Nat) (addr : Nat)
  | v6 (port : Nat) (scope : Nat) (addr : Nat)
  | unixSock (path : String)
deriving DecidableEq, Repr

/-- _match_socket_address: family must agree, then AF_INET compares
(port, address), AF_INET6 compares (port, scope, address), AF_UNIX
compares the path.  A family outside these three hits fatal_abort in C
and is unrepresentable here. -/
def match_socket_address (addr1 addr2 : SlurmAddr) : Bool :=
  match addr1, addr2 with
  | SlurmAddr.v4 p1 a1, SlurmAddr.v4 p2 a2 =>
    decide (p1 = p2) && decide (a1 = a2)
  | SlurmAddr.v6 p1 s1 a1, SlurmAddr.v6 p2 s2 a2 =>
    decide (p1 = p2) && decide (s1 = s2) && decide (a1 = a2)
  | SlurmAddr.unixSock x, SlurmAddr.unixSock y =>
    decide (x = y)
  | _, _ => false

/-- _is_listening: scans mgr.listen_conns (here: the list of listener
addresses) for a _match_socket_address hit. -/
def is_listening (listen_conns : List SlurmAddr) (addr : SlurmAddr) : Bool :=
  listen_conns.any (fun a => match_socket_address addr a)

/-- The per-address loop of conmgr_create_listen_socket over the
resolved address list.  rc starts at SLURM_SUCCESS and the loop runs
while rc is zero.  A duplicate address is skipped with a verbose log and
no listener added.  Otherwise socket/setsockopt/bind failures are
fatal() (so the surviving path reaches listen and registration), and
`procRc` is the oracle for the conmgr_process_fd_listen result, which
appends the listener on success.  Returns the final rc and listener
list. -/
def listen_socket_loop (conns : List SlurmAddr) (addrs : List SlurmAddr)
    (procRc : SlurmAddr → Int) : Int × List SlurmAddr :=
  match addrs with
  | [] => (SLURM_SUCCESS, conns)
  | a :: rest =>
    if is_listening conns a then
      listen_socket_loop conns rest procRc
    else
      let rc := procRc a
      if rc = 0 then
        listen_socket_loop (conns ++ [a]) rest procRc
      else
        (rc, conns)

/-- The unix: branch of conmgr_create_listen_socket (taken when the
listen string carries the unix: prefix).  It consults no duplicate
check: socket creation, unlink of a pre-existing path, bind and listen
failures are all fatal(), so the surviving path always reaches
conmgr_process_fd_unix_listen, whose result `procRc` (the
add_connection outcome) is returned; on success the new listener is
appended to the listener list regardless of what it already contains. -/
def create_listen_socket_unix (conns : List SlurmAddr) (path : String)
    (procRc : SlurmAddr → Int) : Int × List SlurmAddr :=
  let addr := SlurmAddr.unixSock path
  let rc := procRc addr
  if rc = 0 then
    (rc, conns ++ [addr])
  else
    (rc, conns)

/-- conmgr_create_listen_socket: dispatches on whether the listen
string starts with the unix: prefix (`unixPath = some path` holds the
path after the prefix).  The unix branch never runs the duplicate
check; only the getaddrinfo resolver loop (`addrs` being the resolved
address list) does. -/
def conmgr_create_listen_socket (conns : List SlurmAddr)
    (unixPath : Option String) (addrs : List SlurmAddr)
    (procRc : SlurmAddr → Int) : Int × List SlurmAddr :=
  match unixPath with
  | some path => create_listen_socket_unix conns path procRc
  | none => listen_socket_loop conns addrs procRc

/-! ## conmgr_create_connect_socket (con.c) -/

/-- Outcome of conmgr_create_connect_socket: rc, whether the fd was
closed before returning, and whether add_connection was reached (the
connection registered). -/
structure ConnectOutcome where
  rc : Int
  fd_closed : Bool
  registered : Bool
deriving DecidableEq, Repr

/-- The connect() retry loop (the `again:` label).  `connects` is the
oracle list of successive connect() results: `none` is success, `some e`
failure with errno e.  `shutdown` is mgr.shutdown_requested as read
under the mutex on an EINTR, and `addRc` the add_connection result.
Running out of oracle entries (an unbounded EINTR storm) yields `none`. -/
def connect_retry_loop (shutdown : Bool) (addRc : Int) :
    List (Option Int) → Option ConnectOutcome
  | [] => none
  | r :: rest =>
    match r with
    | none =>
      some { rc := addRc, fd_closed := false, registered := true }
    | some e =>
      if e = EINTR then
        if shutdown then
          some { rc := SLURM_SUCCESS, fd_closed := true, registered := false }
        else
          connect_retry_loop shutdown addRc rest
      else if e = EINPROGRESS ∨ e = EAGAIN ∨ e = EWOULDBLOCK then
        some { rc := addRc, fd_closed := false, registered := true }
      else
        some { rc := e, fd_closed := true, registered := false }

/-- Address family tag of the slurm_addr_t passed to
conmgr_create_connect_socket. -/
inductive AddrFamily where
  | AF_INET
  | AF_INET6
  | AF_UNIX
  | other (code : Nat)
deriving DecidableEq, Repr

/-- conmgr_create_connect_socket: families other than
AF_INET/AF_INET6/AF_UNIX return EAFNOSUPPORT before any socket exists;
a socket() failure (oracle `socketErr = some e`) returns e; otherwise
the non-blocking connect() retry loop runs. -/
def conmgr_create_connect_socket (family : AddrFamily)
    (socketErr : Option Int) (shutdown : Bool) (addRc : Int)
    (connects : List (Option Int)) : Option ConnectOutcome :=
  match family with
  | AddrFamily.other _ =>
    some { rc := EAFNOSUPPORT, fd_closed := false, registered := false }
  | _ =>
    match socketErr with
    | some e =>
      some { rc := e, fd_closed := false, registered := false }
    | none => connect_retry_loop shutdown addRc connects

/-! ## _signal_handler (signal.c) -/

/-- Outcome of one run of the OS-level signal handler. -/
inductive SignalOutcome where
  /-- signal_fd was < 0 (e.g. after fork): returned without writing. -/
  | returnedNoWrite
  /-- wrote the integer signal number to the self-pipe. -/
  | wrote (signo : Int)
  /-- write failed with EPIPE/EBADF: returned silently (shutdown race). -/
  | silentReturn
  /-- any other write error: fatal_abort. -/
  | aborted
deriving DecidableEq, Repr

/-- The `try_again:` write loop of _signal_handler.  `writes` is the
oracle list of successive write() results (`none` = full write of
sizeof(int) bytes, `some e` = failure with errno e).  Running out of
oracle entries (an unbounded retry storm) yields `none`. -/
def signal_write_loop (signo : Int) :
    List (Option Int) → Option SignalOutcome
  | [] => none
  | r :: rest =>
    match r with
    | none => some (SignalOutcome.wrote signo)
    | some e =>
      if e = EPIPE ∨ e = EBADF then
        some SignalOutcome.silentReturn
      else if e = EAGAIN ∨ e = EWOULDBLOCK ∨ e = EINTR then
        signal_write_loop signo rest
      else
        some SignalOutcome.aborted

/-- _signal_handler: gracefully ignores the signal when signal_fd is
absent (< 0), otherwise writes the signal number with the retry loop. -/
def signal_handler (signal_fd : Int) (signo : Int)
    (writes : List (Option Int)) : Option SignalOutcome :=
  if signal_fd < 0 then
    some SignalOutcome.returnedNoWrite
  else
    signal_write_loop signo writes

/-! ## Sample connections used by witnesses and counterexamples -/

/-- A plain open socket connection with a shared fd 3, no work active. -/
def conA : ConmgrFd :=
  { input_fd := 3
    output_fd := 3
    is_socket := true
    is_listen := false
    read_eof := false
    can_read := true
    work_active := false
    type := ConType.RAW
    polling_input_fd := PctlType.NONE
    polling_output_fd := PctlType.NONE
    has_in_buf := true
    in_offset := 5
    unix_socket := none }

/-- A connection with distinct input and output fds. -/
def conB : ConmgrFd :=
  { conA with input_fd := 4, output_fd := 7 }

/-! ## Theorems for the claims -/

/-- Claim C1 (code_bug evidence): evaluating the embedded
conmgr_queue_close_fd at both polarities of work_active shows the
branch is inverted: with work_active true the connection is closed
immediately (close_con), and with work_active false a deferred
close-work item is queued — the opposite of what the claim, the spec,
and the code's own comment describe.  The deferred work item itself
does retry while work is active and close otherwise, as claimed. -/
theorem conmgr_queue_close_fd_polarity_inverted :
    conmgr_queue_close_fd { conA with work_active := true } =
      CloseDispatch.closeNow ∧
    conmgr_queue_close_fd { conA with work_active := false } =
      CloseDispatch.deferWork ∧
    deferred_close_fd { conA with work_active := true } =
      DeferredCloseStep.requeue ∧
    deferred_close_fd { conA with work_active := false } =
      DeferredCloseStep.closeNow := by
  refine ⟨rfl, rfl, rfl, rfl⟩

/-- Claim C2 (counterexample): a socket connection that has reached EOF
(read_eof true) but still has an open output fd is accepted by
conmgr_queue_send_fd — it returns SLURM_SUCCESS and queues the work
item — so the claim that both operations reject an EOF source is false
for conmgr_queue_send_fd. -/
theorem conmgr_queue_send_fd_accepts_eof_source :
    ({ conA with read_eof := true } : ConmgrFd).read_eof = true ∧
    ({ conA with read_eof := true } : ConmgrFd).is_socket = true ∧
    conmgr_queue_send_fd { conA with read_eof := true } 4 =
      (SLURM_SUCCESS, true) := by
  refine ⟨rfl, rfl, rfl⟩

/-- Claim C2 (amended): conmgr_queue_receive_fd succeeds and queues the
work item exactly when the source is a socket, has not reached EOF, and
has an open input fd; conmgr_queue_send_fd succeeds and queues the work
item exactly when the fd being sent is valid, the connection is a
socket, and its output fd is open (read_eof is not examined).  Every
rejection returns one of the taxonomized nonzero codes EINVAL,
EAFNOSUPPORT, or SLURM_COMMUNICATIONS_MISSING_SOCKET_ERROR. -/
theorem queue_send_receive_fd_characterization (con : ConmgrFd) (fd : Int) :
    ((conmgr_queue_receive_fd con).1 = SLURM_SUCCESS ↔
      con.is_socket = true ∧ con.read_eof = false ∧ 0 ≤ con.input_fd) ∧
    ((conmgr_queue_receive_fd con).2 = true ↔
      (conmgr_queue_receive_fd con).1 = SLURM_SUCCESS) ∧
    ((conmgr_queue_send_fd con fd).1 = SLURM_SUCCESS ↔
      0 ≤ fd ∧ con.is_socket = true ∧ 0 ≤ con.output_fd) ∧
    ((conmgr_queue_send_fd con fd).2 = true ↔
      (conmgr_queue_send_fd con fd).1 = SLURM_SUCCESS) ∧
    ((conmgr_queue_receive_fd con).1 = SLURM_SUCCESS ∨
      (conmgr_queue_receive_fd con).1 = EAFNOSUPPORT ∨
      (conmgr_queue_receive_fd con).1 =
        SLURM_COMMUNICATIONS_MISSING_SOCKET_ERROR) ∧
    ((conmgr_queue_send_fd con fd).1 = SLURM_SUCCESS ∨
      (conmgr_queue_send_fd con fd).1 = EINVAL ∨
      (conmgr_queue_send_fd con fd).1 = EAFNOSUPPORT ∨
      (conmgr_queue_send_fd con fd).1 =
        SLURM_COMMUNICATIONS_MISSING_SOCKET_ERROR) := by
  unfold conmgr_queue_receive_fd conmgr_queue_send_fd
  unfold SLURM_SUCCESS EINVAL EAFNOSUPPORT
    SLURM_COMMUNICATIONS_MISSING_SOCKET_ERROR
  rcases con with ⟨ifd, ofd, sock, _, eof, _, _, _, _, _, _, _, _⟩
  cases sock <;> cases eof <;> simp <;> split_ifs <;> simp_all

/-- Claim C2 witness: the amended characterization instantiated at a
concrete healthy connection and fd. -/
theorem queue_send_receive_fd_characterization_witness :
    ((conmgr_queue_receive_fd conA).1 = SLURM_SUCCESS ↔
      conA.is_socket = true ∧ conA.read_eof = false ∧ 0 ≤ conA.input_fd) ∧
    ((conmgr_queue_receive_fd conA).2 = true ↔
      (conmgr_queue_receive_fd conA).1 = SLURM_SUCCESS) ∧
    ((conmgr_queue_send_fd conA 4).1 = SLURM_SUCCESS ↔
      0 ≤ (4 : Int) ∧ conA.is_socket = true ∧ 0 ≤ conA.output_fd) ∧
    ((conmgr_queue_send_fd conA 4).2 = true ↔
      (conmgr_queue_send_fd conA 4).1 = SLURM_SUCCESS) ∧
    ((conmgr_queue_receive_fd conA).1 = SLURM_SUCCESS ∨
      (conmgr_queue_receive_fd conA).1 = EAFNOSUPPORT ∨
      (conmgr_queue_receive_fd conA).1 =
        SLURM_COMMUNICATIONS_MISSING_SOCKET_ERROR) ∧
    ((conmgr_queue_send_fd conA 4).1 = SLURM_SUCCESS ∨
      (conmgr_queue_send_fd conA 4).1 = EINVAL ∨
      (conmgr_queue_send_fd conA 4).1 = EAFNOSUPPORT ∨
      (conmgr_queue_send_fd conA 4).1 =
        SLURM_COMMUNICATIONS_MISSING_SOCKET_ERROR) :=
  queue_send_receive_fd_characterization conA 4

/-- Claim C3: close_con leaves input_fd equal to -1 (assuming the fd
field is well formed, i.e. -1 or a real fd), a second call on an
already-closed connection changes no connection state, and close_con is
idempotent. -/
theorem close_con_closes_input_and_idempotent (con : ConmgrFd)
    (h : con.input_fd = -1 ∨ 0 ≤ con.input_fd) :
    (close_con con).input_fd = -1 ∧
    (con.input_fd < 0 → close_con con = con) ∧
    close_con (close_con con) = close_con con := by
  have hnoop : ∀ c : ConmgrFd, c.input_fd < 0 → close_con c = c := by
    intro c hlt
    simp [close_con, hlt]
  have hclosed : (close_con con).input_fd = -1 := by
    rcases h with h | h
    · rw [hnoop con (by omega)]; exact h
    · have hneg : ¬ con.input_fd < 0 := by omega
      simp [close_con, hneg]
  refine ⟨hclosed, hnoop con, ?_⟩
  exact hnoop (close_con con) (by omega)

/-- Claim C3 witness: instantiated at the concrete open connection conA
and at an already-closed connection. -/
theorem close_con_closes_input_and_idempotent_witness :
    (close_con conA).input_fd = -1 ∧
    close_con { conA with input_fd := -1 } = { conA with input_fd := -1 } := by
  refine ⟨(close_con_closes_input_and_idempotent conA (Or.inr (by decide))).1,
    (close_con_closes_input_and_idempotent { conA with input_fd := -1 }
      (Or.inl rfl)).2.1 (by decide)⟩

/-- Helper: when the pollctl link oracle reports success, _set_fd_polling
stores exactly the requested kind on any side not stuck at
UNSUPPORTED. -/
theorem set_fd_polling_link_ok (old new : PctlType)
    (h : old ≠ PctlType.UNSUPPORTED) :
    set_fd_polling 0 old new = some new := by
  unfold set_fd_polling
  rcases eq_or_ne old new with rfl | hne
  · simp [h]
  · by_cases hn : new = PctlType.NONE
    · subst hn
      simp [h, hne]
    · by_cases ho : old = PctlType.NONE
      · simp [h, hne, hn, ho]
      · simp [h, hne, hn, ho]

/-- Claim C4: con_set_polling maps the requested kind to per-fd polling
interest per the normative table (with successful pollctl links and no
side stuck at UNSUPPORTED).  With a shared fd, READ_WRITE stores
READ_WRITE and WRITE_ONLY stores WRITE_ONLY on the single (input) slot;
with distinct fds, READ_WRITE stores READ_ONLY on the input and
WRITE_ONLY on the output, WRITE_ONLY leaves only the output with
interest (input drops to NONE), READ_ONLY leaves only the input with
interest, CONNECTED stores CONNECTED on both, and NONE clears both. -/
theorem con_set_polling_table (con : ConmgrFd)
    (hin : con.polling_input_fd ≠ PctlType.UNSUPPORTED)
    (hout : con.polling_output_fd ≠ PctlType.UNSUPPORTED) :
    (con.input_fd = con.output_fd →
      con_set_polling con PctlType.READ_WRITE 0 0 =
        some { con with polling_input_fd := PctlType.READ_WRITE } ∧
      con_set_polling con PctlType.WRITE_ONLY 0 0 =
        some { con with polling_input_fd := PctlType.WRITE_ONLY }) ∧
    (con.input_fd ≠ con.output_fd → 0 ≤ con.input_fd → 0 ≤ con.output_fd →
      con_set_polling con PctlType.READ_WRITE 0 0 =
        some { con with polling_input_fd := PctlType.READ_ONLY,
                        polling_output_fd := PctlType.WRITE_ONLY } ∧
      con_set_polling con PctlType.WRITE_ONLY 0 0 =
        some { con with polling_input_fd := PctlType.NONE,
                        polling_output_fd := PctlType.WRITE_ONLY } ∧
      con_set_polling con PctlType.READ_ONLY 0 0 =
        some { con with polling_input_fd := PctlType.READ_ONLY,
                        polling_output_fd := PctlType.NONE } ∧
      con_set_polling con PctlType.CONNECTED 0 0 =
        some { con with polling_input_fd := PctlType.CONNECTED,
                        polling_output_fd := PctlType.CONNECTED } ∧
      con_set_polling con PctlType.NONE 0 0 =
        some { con with polling_input_fd := PctlType.NONE,
                        polling_output_fd := PctlType.NONE }) := by
  constructor
  · intro hsame
    constructor <;>
      simp [con_set_polling, con_polling_map, hsame, hin,
            set_fd_polling_link_ok _ _ hin]
  · intro hdiff h0in h0out
    have hnin : ¬ con.input_fd < 0 := by omega
    have hnout : ¬ con.output_fd < 0 := by omega
    refine ⟨?_, ?_, ?_, ?_, ?_⟩ <;>
      simp [con_set_polling, con_polling_map, hdiff, hin, hout, h0in, h0out,
            set_fd_polling_link_ok _ _ hin, set_fd_polling_link_ok _ _ hout]

/-- Claim C4 witness: the table instantiated at conA (shared fd) and
conB (distinct fds), both with successful links and no UNSUPPORTED
side. -/
theorem con_set_polling_table_witness :
    con_set_polling conA PctlType.READ_WRITE 0 0 =
      some { conA with polling_input_fd := PctlType.READ_WRITE } ∧
    con_set_polling conB PctlType.READ_WRITE 0 0 =
      some { conB with polling_input_fd := PctlType.READ_ONLY,
                       polling_output_fd := PctlType.WRITE_ONLY } := by
  have hA := (con_set_polling_table conA (by decide) (by decide)).1 (by decide)
  have hB := (con_set_polling_table conB (by decide) (by decide)).2
    (by decide) (by decide) (by decide)
  exact ⟨hA.1, hB.1⟩

/-- Claim C5: PCTL_TYPE_UNSUPPORTED is sticky.  _set_fd_polling returns
UNSUPPORTED unchanged for every requested kind and every link-oracle
value, and any successful con_set_polling call preserves UNSUPPORTED on
whichever side already has it. -/
theorem polling_unsupported_sticky (linkRc : Int) (new : PctlType)
    (con : ConmgrFd) (type : PctlType) (l1 l2 : Int) (con' : ConmgrFd)
    (h : con_set_polling con type l1 l2 = some con') :
    set_fd_polling linkRc PctlType.UNSUPPORTED new =
      some PctlType.UNSUPPORTED ∧
    (con.polling_input_fd = PctlType.UNSUPPORTED →
      con'.polling_input_fd = PctlType.UNSUPPORTED) ∧
    (con.polling_output_fd = PctlType.UNSUPPORTED →
      con'.polling_output_fd = PctlType.UNSUPPORTED) := by
  have hstick : ∀ (l : Int) (k : PctlType),
      set_fd_polling l PctlType.UNSUPPORTED k = some PctlType.UNSUPPORTED := by
    intro l k
    simp [set_fd_polling]
  refine ⟨hstick linkRc new, ?_, ?_⟩
  · intro hu
    by_cases ht : type = PctlType.UNSUPPORTED
    · simp [con_set_polling, ht] at h
    · simp only [con_set_polling, if_neg ht] at h
      rw [hu] at h
      simp only [reduceIte, hstick] at h
      by_cases hs : con.input_fd = con.output_fd
      · rw [if_pos hs] at h
        simp only [Option.map_some', Option.some.injEq] at h
        rw [← h]
      · rw [if_neg hs] at h
        have hin : (if 0 ≤ con.input_fd then
            (some PctlType.UNSUPPORTED : Option PctlType)
            else some PctlType.UNSUPPORTED) = some PctlType.UNSUPPORTED := by
          split <;> rfl
        rw [hin, Option.some_bind] at h
        rcases Option.map_eq_some'.mp h with ⟨pout, _, hcon⟩
        rw [← hcon]
  · intro hu
    by_cases ht : type = PctlType.UNSUPPORTED
    · simp [con_set_polling, ht] at h
    · simp only [con_set_polling, if_neg ht] at h
      rw [hu] at h
      simp only [reduceIte, hstick] at h
      by_cases hs : con.input_fd = con.output_fd
      · rw [if_pos hs] at h
        rcases Option.map_eq_some'.mp h with ⟨p, _, hcon⟩
        rw [← hcon]
      · rw [if_neg hs] at h
        rcases Option.bind_eq_some.mp h with ⟨pin, _, hmap⟩
        rcases Option.map_eq_some'.mp hmap with ⟨pout, hpo, hcon⟩
        have hpout : pout = PctlType.UNSUPPORTED := by
          by_cases ho : 0 ≤ con.output_fd
          · rw [if_pos ho] at hpo
            exact (Option.some.inj hpo).symm
          · rw [if_neg ho] at hpo
            exact (Option.some.inj hpo).symm
        rw [← hcon, hpout]

/-- Claim C5 witness: a connection whose input side is UNSUPPORTED keeps
it across a READ_WRITE request. -/
theorem polling_unsupported_sticky_witness :
    ({ conA with polling_input_fd := PctlType.UNSUPPORTED } :
      ConmgrFd).polling_input_fd = PctlType.UNSUPPORTED :=
  (polling_unsupported_sticky 0 PctlType.NONE
    { conA with polling_input_fd := PctlType.UNSUPPORTED }
    PctlType.READ_WRITE 0 0
    { conA with polling_input_fd := PctlType.UNSUPPORTED }
    (by decide)).2.1 rfl

/-- Claim C9: every execution of the _send_fd work item — for both the
RUN and CANCELLED statuses, whether or not the ancillary-data write
happens — closes the local copy of the fd being sent and leaves the
source connection unmodified. -/
theorem send_fd_work_closes_fd_preserves_con (status : WorkStatus)
    (con : ConmgrFd) (fd : Int) :
    (send_fd_work status con fd).con = con ∧
    (send_fd_work status con fd).local_fd_closed = true := by
  cases status
  · constructor <;> simp [send_fd_work] <;> split <;> rfl
  · constructor <;> rfl

/-- Address family tag carried by a SlurmAddr value. -/
def slurm_addr_family : SlurmAddr → AddrFamily
  | SlurmAddr.v4 _ _ => AddrFamily.AF_INET
  | SlurmAddr.v6 _ _ _ => AddrFamily.AF_INET6
  | SlurmAddr.unixSock _ => AddrFamily.AF_UNIX

/-- Claim C6 (counterexample): an AF_UNIX listen request on a path
already present in the listener list is not rejected.  The address is a
duplicate by the family-specific equality the claim names (the path
matches, so is_listening is true), yet the unix: branch of
conmgr_create_listen_socket consults no duplicate check: it registers a
second listener for the same path and returns SLURM_SUCCESS with the
listener list grown by one. -/
theorem unix_duplicate_listen_not_rejected :
    is_listening [SlurmAddr.unixSock "/tmp/x"]
      (SlurmAddr.unixSock "/tmp/x") = true ∧
    conmgr_create_listen_socket [SlurmAddr.unixSock "/tmp/x"]
      (some "/tmp/x") [] (fun _ => SLURM_SUCCESS) =
      (SLURM_SUCCESS,
       [SlurmAddr.unixSock "/tmp/x", SlurmAddr.unixSock "/tmp/x"]) := by
  refine ⟨by decide, ?_⟩
  rfl

/-- Claim C6 (amended): the duplicate-listener check runs only in the
getaddrinfo resolver loop of conmgr_create_listen_socket (the branch
without the unix: prefix): there a listen request on an address equal —
by family-specific equality: AF_INET by (port, address), AF_INET6 by
(port, scope, address), AF_UNIX by path, never across families — to an
address already present in the listener list is skipped with a verbose
log, adds no new listener, and still returns SLURM_SUCCESS.  The unix:
branch performs no duplicate check: a repeated unix:/path request
registers a second listener for the same path (appending it on
successful registration) whatever the listener list already contains. -/
theorem duplicate_listen_rejected_resolver_only :
    (∀ (conns addrs : List SlurmAddr) (procRc : SlurmAddr → Int),
      (∀ a ∈ addrs, is_listening conns a = true) →
      conmgr_create_listen_socket conns none addrs procRc =
        (SLURM_SUCCESS, conns)) ∧
    (∀ (conns : List SlurmAddr) (path : String)
      (addrs : List SlurmAddr) (procRc : SlurmAddr → Int),
      procRc (SlurmAddr.unixSock path) = 0 →
      conmgr_create_listen_socket conns (some path) addrs procRc =
        (SLURM_SUCCESS, conns ++ [SlurmAddr.unixSock path])) ∧
    (∀ p1 a1 p2 a2, match_socket_address (SlurmAddr.v4 p1 a1)
      (SlurmAddr.v4 p2 a2) = true ↔ p1 = p2 ∧ a1 = a2) ∧
    (∀ p1 s1 a1 p2 s2 a2, match_socket_address (SlurmAddr.v6 p1 s1 a1)
      (SlurmAddr.v6 p2 s2 a2) = true ↔ p1 = p2 ∧ s1 = s2 ∧ a1 = a2) ∧
    (∀ x y, match_socket_address (SlurmAddr.unixSock x)
      (SlurmAddr.unixSock y) = true ↔ x = y) ∧
    (∀ a1 a2, slurm_addr_family a1 ≠ slurm_addr_family a2 →
      match_socket_address a1 a2 = false) := by
  refine ⟨?_, ?_, ?_, ?_, ?_, ?_⟩
  · intro conns addrs procRc hdup
    show listen_socket_loop conns addrs procRc = (SLURM_SUCCESS, conns)
    induction addrs with
    | nil => rfl
    | cons a rest ih =>
      have ha := hdup a (List.mem_cons_self a rest)
      have hrest : ∀ b ∈ rest, is_listening conns b = true := by
        intro b hb
        exact hdup b (List.mem_cons_of_mem a hb)
      simpa [listen_socket_loop, ha] using ih hrest
  · intro conns path addrs procRc hrc
    show create_listen_socket_unix conns path procRc =
      (SLURM_SUCCESS, conns ++ [SlurmAddr.unixSock path])
    simp [create_listen_socket_unix, hrc, SLURM_SUCCESS]
  · intro p1 a1 p2 a2
    simp [match_socket_address, and_assoc]
  · intro p1 s1 a1 p2 s2 a2
    simp [match_socket_address, and_assoc]
  · intro x y
    simp [match_socket_address]
  · intro a1 a2 hne
    cases a1 <;> cases a2 <;> simp_all [match_socket_address,
      slurm_addr_family]

/-- Claim C6 witness: a single resolved IPv4 address equal (by port and
address) to an existing listener is skipped by the resolver loop — the
listener list is unchanged and rc is SLURM_SUCCESS even though the
registration oracle would have failed — while a unix:/path request on
an already-listened path appends a second listener. -/
theorem duplicate_listen_rejected_resolver_only_witness :
    conmgr_create_listen_socket [SlurmAddr.v4 6817 2130706433] none
      [SlurmAddr.v4 6817 2130706433] (fun _ => SLURM_ERROR) =
      (SLURM_SUCCESS, [SlurmAddr.v4 6817 2130706433]) ∧
    conmgr_create_listen_socket [SlurmAddr.unixSock "/tmp/x"]
      (some "/tmp/x") [] (fun _ => SLURM_SUCCESS) =
      (SLURM_SUCCESS, [SlurmAddr.unixSock "/tmp/x"] ++
        [SlurmAddr.unixSock "/tmp/x"]) :=
  ⟨duplicate_listen_rejected_resolver_only.1
    [SlurmAddr.v4 6817 2130706433] [SlurmAddr.v4 6817 2130706433]
    (fun _ => SLURM_ERROR) (by decide),
   duplicate_listen_rejected_resolver_only.2.1
    [SlurmAddr.unixSock "/tmp/x"] "/tmp/x" []
    (fun _ => SLURM_SUCCESS) rfl⟩

/-- Claim C7: conmgr_create_connect_socket returns EAFNOSUPPORT for a
family outside AF_INET/AF_INET6/AF_UNIX without creating any fd or
connection; for supported families with a created socket, a connect()
ending in EINPROGRESS/EAGAIN/EWOULDBLOCK (or succeeding) registers the
connection via add_connection without closing the fd, EINTR during a
requested shutdown closes the fd and returns SLURM_SUCCESS, EINTR
without shutdown retries the connect, and any other connect() error
closes the fd and returns that error. -/
theorem create_connect_socket_spec :
    (∀ (code : Nat) (socketErr : Option Int) (shutdown : Bool)
      (addRc : Int) (connects : List (Option Int)),
      conmgr_create_connect_socket (AddrFamily.other code) socketErr
        shutdown addRc connects =
        some { rc := EAFNOSUPPORT, fd_closed := false,
               registered := false }) ∧
    (∀ (shutdown : Bool) (addRc : Int) (connects : List (Option Int)),
      conmgr_create_connect_socket AddrFamily.AF_INET none shutdown addRc
          connects = connect_retry_loop shutdown addRc connects ∧
      conmgr_create_connect_socket AddrFamily.AF_INET6 none shutdown addRc
          connects = connect_retry_loop shutdown addRc connects ∧
      conmgr_create_connect_socket AddrFamily.AF_UNIX none shutdown addRc
          connects = connect_retry_loop shutdown addRc connects) ∧
    (∀ (shutdown : Bool) (addRc : Int) (rest : List (Option Int)),
      connect_retry_loop shutdown addRc (none :: rest) =
        some { rc := addRc, fd_closed := false, registered := true }) ∧
    (∀ (shutdown : Bool) (addRc e : Int) (rest : List (Option Int)),
      (e = EINPROGRESS ∨ e = EAGAIN ∨ e = EWOULDBLOCK) →
      connect_retry_loop shutdown addRc (some e :: rest) =
        some { rc := addRc, fd_closed := false, registered := true }) ∧
    (∀ (addRc : Int) (rest : List (Option Int)),
      connect_retry_loop true addRc (some EINTR :: rest) =
        some { rc := SLURM_SUCCESS, fd_closed := true,
               registered := false }) ∧
    (∀ (addRc : Int) (rest : List (Option Int)),
      connect_retry_loop false addRc (some EINTR :: rest) =
        connect_retry_loop false addRc rest) ∧
    (∀ (shutdown : Bool) (addRc e : Int) (rest : List (Option Int)),
      e ≠ EINTR → e ≠ EINPROGRESS → e ≠ EAGAIN → e ≠ EWOULDBLOCK →
      connect_retry_loop shutdown addRc (some e :: rest) =
        some { rc := e, fd_closed := true, registered := false }) := by
  refine ⟨?_, ?_, ?_, ?_, ?_, ?_, ?_⟩
  · intro code socketErr shutdown addRc connects
    rfl
  · intro shutdown addRc connects
    exact ⟨rfl, rfl, rfl⟩
  · intro shutdown addRc rest
    rfl
  · intro shutdown addRc e rest h
    rcases h with rfl | rfl | rfl <;>
      simp [connect_retry_loop, EINTR, EINPROGRESS, EAGAIN, EWOULDBLOCK]
  · intro addRc rest
    simp [connect_retry_loop]
  · intro addRc rest
    simp [connect_retry_loop]
  · intro shutdown addRc e rest h1 h2 h3 h4
    simp [connect_retry_loop, h1, h2, h3, h4]

/-- Claim C7 witness: the conjuncts instantiated at concrete inputs —
an unsupported family 17 returns EAFNOSUPPORT, and an AF_INET connect
ending in EINPROGRESS registers the connection with the add_connection
result. -/
theorem create_connect_socket_spec_witness :
    conmgr_create_connect_socket (AddrFamily.other 17) none false 0 [] =
      some { rc := EAFNOSUPPORT, fd_closed := false,
             registered := false } ∧
    conmgr_create_connect_socket AddrFamily.AF_INET none false 0
      [some EINPROGRESS] =
      some { rc := 0, fd_closed := false, registered := true } := by
  refine ⟨create_connect_socket_spec.1 17 none false 0 [], ?_⟩
  rw [(create_connect_socket_spec.2.1 false 0 [some EINPROGRESS]).1]
  exact create_connect_socket_spec.2.2.2.1 false 0 EINPROGRESS []
    (Or.inl rfl)

/-- Claim C8: the OS-level signal handler returns without writing when
the self-pipe fd is absent (negative, e.g. after fork); otherwise it
writes the integer signal number, retrying the write on
EINTR/EAGAIN/EWOULDBLOCK, returning silently (no abort) on EPIPE or
EBADF, and aborting only on any other write error. -/
theorem signal_handler_spec :
    (∀ (fd signo : Int) (writes : List (Option Int)), fd < 0 →
      signal_handler fd signo writes =
        some SignalOutcome.returnedNoWrite) ∧
    (∀ (fd signo : Int) (rest : List (Option Int)), 0 ≤ fd →
      signal_handler fd signo (none :: rest) =
        some (SignalOutcome.wrote signo)) ∧
    (∀ (signo e : Int) (rest : List (Option Int)),
      (e = EPIPE ∨ e = EBADF) →
      signal_write_loop signo (some e :: rest) =
        some SignalOutcome.silentReturn) ∧
    (∀ (signo e : Int) (rest : List (Option Int)),
      (e = EAGAIN ∨ e = EWOULDBLOCK ∨ e = EINTR) →
      signal_write_loop signo (some e :: rest) =
        signal_write_loop signo rest) ∧
    (∀ (signo e : Int) (rest : List (Option Int)),
      e ≠ EPIPE → e ≠ EBADF → e ≠ EAGAIN → e ≠ EWOULDBLOCK → e ≠ EINTR →
      signal_write_loop signo (some e :: rest) =
        some SignalOutcome.aborted) := by
  refine ⟨?_, ?_, ?_, ?_, ?_⟩
  · intro fd signo writes hfd
    simp [signal_handler, hfd]
  · intro fd signo rest hfd
    have hneg : ¬ fd < 0 := by omega
    simp [signal_handler, hneg, signal_write_loop]
  · intro signo e rest h
    rcases h with rfl | rfl <;> simp [signal_write_loop, EPIPE, EBADF]
  · intro signo e rest h
    rcases h with rfl | rfl | rfl <;>
      simp [signal_write_loop, EAGAIN, EWOULDBLOCK, EINTR, EPIPE, EBADF]
  · intro signo e rest h1 h2 h3 h4 h5
    simp [signal_write_loop, h1, h2, h3, h4, h5]

/-- Claim C8 witness: the conjuncts instantiated concretely — a handler
with signal_fd -1 (post-fork) returns without writing; with fd 5 it
writes signal 15; a write failing with EPIPE returns silently. -/
theorem signal_handler_spec_witness :
    signal_handler (-1) 15 [] = some SignalOutcome.returnedNoWrite ∧
    signal_handler 5 15 [none] = some (SignalOutcome.wrote 15) ∧
    signal_write_loop 15 [some EPIPE] =
      some SignalOutcome.silentReturn :=
  ⟨signal_handler_spec.1 (-1) 15 [] (by decide),
   signal_handler_spec.2.1 5 15 [] (by decide),
   signal_handler_spec.2.2.1 15 EPIPE [] (Or.inl rfl)⟩

/-- Claim C10: fd_change_mode on a connection that already has the
requested type returns SLURM_SUCCESS and leaves the connection
unchanged, and fd_change_mode is idempotent: a second application with
the same type returns SLURM_SUCCESS and the state of the first. -/
theorem fd_change_mode_idempotent (con : ConmgrFd) (type : ConType) :
    (con.type = type → fd_change_mode con type = (SLURM_SUCCESS, con)) ∧
    fd_change_mode (fd_change_mode con type).2 type =
      (SLURM_SUCCESS, (fd_change_mode con type).2) := by
  constructor
  · intro h
    simp [fd_change_mode, h]
  · by_cases h : con.type = type
    · simp [fd_change_mode, h]
    · simp [fd_change_mode, h]

/-- Claim C10 witness: instantiated at conA (a RAW connection) with the
RAW type. -/
theorem fd_change_mode_idempotent_witness :
    fd_change_mode conA ConType.RAW = (SLURM_SUCCESS, conA) ∧
    fd_change_mode (fd_change_mode conA ConType.RAW).2 ConType.RAW =
      (SLURM_SUCCESS, (fd_change_mode conA ConType.RAW).2) :=
  ⟨(fd_change_mode_idempotent conA ConType.RAW).1 rfl,
   (fd_change_mode_idempotent conA ConType.RAW).2⟩

end Slurm
